import Mathlib

/-!
Verification of the x402 httpx client middleware
(`src/facilitator/vendor/x402/python/x402/src/x402/clients/httpx.py`).

The file shallowly embeds the module: `HttpxHooks.on_response` (the 402
payment-retry state machine), the `x402_payment_hooks` factory and the
`x402HttpxClient` subclass wiring.  External collaborators whose code is
not under `src/` (the `x402.clients.base` client and error hierarchy, the
httpx transport, body reading and JSON deserialization) are modelled as
oracles in an `Env` record; the control flow of `on_response` itself is
translated line by line from the source.
-/

namespace X402

/-! ## Exceptions -/

/-- Exception classes that can reach `on_response`'s `try` block.
`otherClass` covers every Python exception that is not part of the x402
error hierarchy (deserialization errors, transport errors, ...), carrying
its Python type name. -/
inductive ExnClass where
  | paymentError
  | missingRequestConfigError
  | otherClass (name : String)
deriving DecidableEq, Repr

/-- The Python type name of an exception class (`type(e).__name__`). -/
def ExnClass.typeName : ExnClass → String
  | .paymentError => "PaymentError"
  | .missingRequestConfigError => "MissingRequestConfigError"
  | .otherClass n => n

/-- Modelled from the spec: the error hierarchy of `x402.clients.base` is
not under `src/`.  The spec states that a missing request context "fails
with `MissingRequestConfigError`" which is "surfaced immediately", which
forces `MissingRequestConfigError` to be caught by the
`except PaymentError: raise e` branch of `on_response`, i.e. to be a
subclass of `PaymentError`. -/
def ExnClass.isPaymentError : ExnClass → Bool
  | .paymentError => true
  | .missingRequestConfigError => true
  | .otherClass _ => false

/-- A Python exception value: its class, its message (`str(e)`), and its
`__cause__` chain (set by `raise ... from e`). -/
inductive Exn where
  | mk (cls : ExnClass) (msg : String) (cause : Option Exn)

/-- The class of an exception. -/
def Exn.cls : Exn → ExnClass
  | .mk c _ _ => c

/-- The message of an exception (`str(e)`). -/
def Exn.msg : Exn → String
  | .mk _ m _ => m

/-- The `__cause__` of an exception. -/
def Exn.cause : Exn → Option Exn
  | .mk _ _ c => c

/-- `str(e) if str(e) else repr(e)` from the handler: the message when it
is non-empty, otherwise the `repr` of an argumentless exception. -/
def errStr (e : Exn) : String :=
  if e.msg = "" then e.cls.typeName ++ "()" else e.msg

/-- The wrapped exception raised by the catch-all handler:
`PaymentError(f"Failed to handle payment: \x7berror_type\x7d: \x7berror_msg\x7d") from e`. -/
def wrapExn (e : Exn) : Exn :=
  .mk .paymentError
    ("Failed to handle payment: " ++ e.cls.typeName ++ ": " ++ errStr e)
    (some e)

/-! ## Requests, responses, headers -/

/-- A header map, as an association list of (name, value).  `setHeader`
models httpx `headers[k] = v`: it overwrites the value at an existing
name and otherwise appends. -/
def setHeader : List (String × String) → String → String → List (String × String)
  | [], k, v => [(k, v)]
  | p :: rest, k, v =>
      if p.1 = k then (k, v) :: setHeader rest k v else p :: setHeader rest k v

/-- Header lookup (`headers.get(k)`). -/
def getHeader : List (String × String) → String → Option String
  | [], _ => none
  | p :: rest, k => if p.1 = k then some p.2 else getHeader rest k

/-- An httpx `Request` object.  `id` stands for Python object identity:
field updates keep it, so two states with the same `id` are the same
object observed at different times. -/
structure Request where
  id : Nat
  headers : List (String × String)
deriving DecidableEq, Repr

/-- An httpx `Response` object.  `body` is the response content
(`_content` once read; reading materializes but does not change it),
`request` the originating request attached to the response. -/
structure Response where
  id : Nat
  status_code : Nat
  headers : List (String × String)
  body : String
  request : Option Request
deriving DecidableEq, Repr

/-! ## The parsed 402 body and the payment data model -/

/-- One acceptable payment option advertised by the server; its payload is
opaque to the interceptor. -/
structure PaymentRequirements where
  payload : String
deriving DecidableEq, Repr

/-- The parsed 402 body: protocol version plus the `accepts` list. -/
structure x402PaymentRequiredResponse where
  x402_version : Nat
  accepts : List PaymentRequirements
deriving DecidableEq, Repr

/-! ## External calls and observable events -/

/-- Externally observable calls made by one `on_response` invocation. -/
inductive Event where
  | bodyRead
  | selectorCalled
  | signerCalled
  | resendOwned
  | resendFallback
deriving DecidableEq, Repr

/-- Whether an event is a resend of the request over the network. -/
def isResend : Event → Bool
  | .resendOwned => true
  | .resendFallback => true
  | _ => false

/-- Number of resends recorded in an event list. -/
def resendCount (evs : List Event) : Nat :=
  (evs.filter isResend).length

/-- The oracles for code outside `src/`: `aread` (reading the body over
the network can fail), `parseBody` (`response.json()` +
`x402PaymentRequiredResponse(**data)`), `select`
(`x402Client.select_payment_requirements`), `createHeader`
(`x402Client.create_payment_header`), and `transport` (the raw network
send, before any response hook runs). -/
structure Env where
  aread : Response → Except Exn Unit
  parseBody : String → Except Exn x402PaymentRequiredResponse
  select : List PaymentRequirements → Except Exn PaymentRequirements
  createHeader : PaymentRequirements → Nat → Except Exn String
  transport : Request → Except Exn Response

/-- The observable result of one `on_response` call: the guard value on
exit, the exception raised (if any), the final field values of the
original response object, the final field values of the originating
request object, and the external calls made.  In every non-raising branch
the source returns the very response object it received, so `response` is
both "the returned object" and "the object's final state". -/
structure Outcome where
  is_retry : Bool
  raised : Option Exn
  response : Response
  request : Option Request
  events : List Event

/-- The request mutation performed before the resend:
`request.headers["X-Payment"] = payment_header` and
`request.headers["Access-Control-Expose-Headers"] = "X-Payment-Response"`. -/
def mutatedRequest (req : Request) (ph : String) : Request :=
  { req with
      headers :=
        setHeader (setHeader req.headers "X-Payment" ph)
          "Access-Control-Expose-Headers" "X-Payment-Response" }

/-- The two `except` clauses of `on_response`: a `PaymentError` (or
subclass) is re-raised unchanged, anything else is wrapped by `wrapExn`;
both clear the guard. -/
def applyCatch (e : Exn) (resp : Response) (req : Option Request)
    (evs : List Event) : Outcome :=
  if e.cls.isPaymentError then
    { is_retry := false, raised := some e, response := resp,
      request := req, events := evs }
  else
    { is_retry := false, raised := some (wrapExn e), response := resp,
      request := req, events := evs }

/-- `HttpxHooks.on_response`, translated line by line.  `owned` records
whether `self.httpx_client` is set; `fuel` bounds the recursion that
happens when the owned client's `send` fires this same response hook on
the retry response (at `fuel = 0` the hook is not re-entered); `st` is
`self._is_retry` on entry. -/
def on_response (env : Env) (owned : Bool) : Nat → Bool → Response → Outcome
  | fuel, st, resp =>
    -- if response.status_code != 402: return response
    if resp.status_code ≠ 402 then
      { is_retry := st, raised := none, response := resp,
        request := resp.request, events := [] }
    -- if self._is_retry: self._is_retry = False; return response
    else if st then
      { is_retry := false, raised := none, response := resp,
        request := resp.request, events := [] }
    else
      match resp.request with
      -- if not response.request: raise MissingRequestConfigError(...)
      | none =>
          applyCatch (.mk .missingRequestConfigError
            "Missing request configuration" none) resp none []
      | some req =>
          -- await response.aread()
          match env.aread resp with
          | .error e => applyCatch e resp (some req) [.bodyRead]
          | .ok _ =>
            -- data = response.json(); x402PaymentRequiredResponse(**data)
            match env.parseBody resp.body with
            | .error e => applyCatch e resp (some req) [.bodyRead]
            | .ok pr =>
              -- self.client.select_payment_requirements(...)
              match env.select pr.accepts with
              | .error e =>
                  applyCatch e resp (some req) [.bodyRead, .selectorCalled]
              | .ok sel =>
                -- self.client.create_payment_header(...)
                match env.createHeader sel pr.x402_version with
                | .error e =>
                    applyCatch e resp (some req)
                      [.bodyRead, .selectorCalled, .signerCalled]
                | .ok ph =>
                  -- self._is_retry = True; mutate request headers
                  let req2 := mutatedRequest req ph
                  let resp1 := { resp with request := some req2 }
                  let evt := if owned then Event.resendOwned
                             else Event.resendFallback
                  -- resend (owned client or throwaway fallback client)
                  match env.transport req2 with
                  | .error e =>
                      applyCatch e resp1 (some req2)
                        [.bodyRead, .selectorCalled, .signerCalled, evt]
                  | .ok raw =>
                      -- the owned client's send fires this hook on the
                      -- retry response; the fallback client has no hooks
                      let inner : Outcome :=
                        if owned then
                          match fuel with
                          | 0 =>
                              { is_retry := true, raised := none,
                                response := raw, request := raw.request,
                                events := [] }
                          | f + 1 => on_response env owned f true raw
                        else
                          { is_retry := true, raised := none,
                            response := raw, request := raw.request,
                            events := [] }
                      match inner.raised with
                      | some e =>
                          applyCatch e resp1 (some req2)
                            ([.bodyRead, .selectorCalled, .signerCalled, evt]
                              ++ inner.events)
                      | none =>
                          -- splice retry status/headers/body into the
                          -- original response object and return it
                          { is_retry := inner.is_retry, raised := none,
                            response :=
                              { resp1 with
                                  status_code := inner.response.status_code,
                                  headers := inner.response.headers,
                                  body := inner.response.body },
                            request := some req2,
                            events :=
                              [.bodyRead, .selectorCalled, .signerCalled, evt]
                                ++ inner.events }

/-! ## Interceptor construction and client wiring -/

/-- An `eth_account.Account`: opaque signer identity. -/
structure Account where
  address : String
deriving DecidableEq, Repr

/-- An opaque custom payment-requirements selector callable, identified
by reference. -/
structure PaymentSelectorCallable where
  ref : Nat
deriving DecidableEq, Repr

/-- Modelled from the spec: `x402Client` from `x402.clients.base` is not
under `src/`.  Per the spec it is the configuration held by the
interceptor — signer identity, spend ceiling and optional custom
selector — built by the constructor call visible at both call sites. -/
structure x402Client where
  account : Account
  max_value : Option Int
  payment_requirements_selector : Option PaymentSelectorCallable
deriving DecidableEq, Repr

/-- The `HttpxHooks` instance state: the x402 client configuration, the
optional reference to the owning httpx client (by object id), and the
retry guard. -/
structure HttpxHooks where
  client : x402Client
  httpx_client : Option Nat
  _is_retry : Bool
deriving DecidableEq, Repr

/-- `HttpxHooks.__init__`. -/
def HttpxHooks.init (client : x402Client) (httpx_client : Option Nat) :
    HttpxHooks :=
  { client := client, httpx_client := httpx_client, _is_retry := false }

/-- A registered event hook: a bound method of a given `HttpxHooks`
instance. -/
inductive Hook where
  | on_request_hook (h : HttpxHooks)
  | on_response_hook (h : HttpxHooks)
deriving DecidableEq, Repr

/-- The httpx `event_hooks` dictionary: the "request" and "response"
hook lists. -/
structure EventHooks where
  request : List Hook
  response : List Hook
deriving DecidableEq, Repr

/-- `x402_payment_hooks`: builds an `x402Client`, an `HttpxHooks` bound
to the optional retry client, and returns the event-hooks dictionary. -/
def x402_payment_hooks (account : Account) (max_value : Option Int)
    (payment_requirements_selector : Option PaymentSelectorCallable)
    (httpx_client : Option Nat) : EventHooks :=
  let client := x402Client.mk account max_value payment_requirements_selector
  let hooks := HttpxHooks.init client httpx_client
  { request := [.on_request_hook hooks],
    response := [.on_response_hook hooks] }

/-- The observable construction state of an httpx `AsyncClient`: its
object id and its `event_hooks` attribute. -/
structure AsyncClientState where
  selfId : Nat
  event_hooks : EventHooks
deriving DecidableEq, Repr

/-- `AsyncClient.__init__` restricted to what the subclass interacts
with: it stores the `event_hooks` keyword argument, defaulting to an
empty registration. -/
def AsyncClient.init (selfId : Nat) (kw_event_hooks : Option EventHooks) :
    AsyncClientState :=
  { selfId := selfId, event_hooks := kw_event_hooks.getD ⟨[], []⟩ }

/-- `x402HttpxClient.__init__`: calls `super().__init__(**kwargs)`, then
builds the `x402Client` and an `HttpxHooks` wired to `self`, and
overwrites `self.event_hooks`. -/
def x402HttpxClient.init (selfId : Nat) (account : Account)
    (max_value : Option Int)
    (payment_requirements_selector : Option PaymentSelectorCallable)
    (kw_event_hooks : Option EventHooks) : AsyncClientState :=
  let base := AsyncClient.init selfId kw_event_hooks
  let client := x402Client.mk account max_value payment_requirements_selector
  let hooks := HttpxHooks.init client (some selfId)
  { base with
      event_hooks :=
        { request := [.on_request_hook hooks],
          response := [.on_response_hook hooks] } }

/-! ## Concrete fixtures used by witnesses and counterexamples -/

/-- A concrete originating request. -/
def reqW : Request := ⟨1, [("Host", "api")]⟩

/-- A concrete first 402 response carrying its request. -/
def respW : Response :=
  ⟨2, 402, [("Content-Type", "application/json")], "challenge", some reqW⟩

/-- The concrete retried response the transport returns. -/
def rrespW : Response :=
  ⟨3, 200, [("X-Payment-Response", "rcpt")], "ok", some (mutatedRequest reqW "sig")⟩

/-- A concrete parsed challenge. -/
def prW : x402PaymentRequiredResponse := ⟨1, [⟨"offer"⟩]⟩

/-- A concrete environment: the body "challenge" parses to `prW`, the
selector picks the first offer, the signer returns "sig", and the
transport answers `rrespW` exactly when the payment header is attached. -/
def envW : Env :=
  { aread := fun _ => .ok ()
  , parseBody := fun b =>
      if b = "challenge" then .ok prW
      else .error (.mk (.otherClass "ValueError") "bad json" none)
  , select := fun accepts =>
      match accepts with
      | [] => .error (.mk .paymentError "no acceptable requirement" none)
      | a :: _ => .ok a
  , createHeader := fun _ _ => .ok "sig"
  , transport := fun r =>
      if getHeader r.headers "X-Payment" = some "sig" then .ok rrespW
      else .error (.mk (.otherClass "ConnectError") "refused" none) }

/-- A concrete non-402 response. -/
def resp200 : Response := ⟨9, 200, [("Server", "nginx")], "welcome", none⟩

/-- A concrete 402 response that carries no originating request. -/
def respNoReq : Response :=
  ⟨4, 402, [("Content-Type", "application/json")], "challenge", none⟩

/-- A non-payment deserialization failure. -/
def exValueError : Exn := .mk (.otherClass "ValueError") "bad json" none

/-- A non-payment transport failure. -/
def exConnectError : Exn := .mk (.otherClass "ConnectError") "connection reset" none

/-- A deliberate selector failure. -/
def exNoMatch : Exn := .mk .paymentError "no acceptable requirement" none

/-- `envW` with a selector that rejects every challenge. -/
def envSel : Env := { envW with select := fun _ => .error exNoMatch }

/-- `envW` with a body that fails to deserialize. -/
def envP : Env := { envW with parseBody := fun _ => .error exValueError }

/-- `envW` with a transport that fails on the resend. -/
def envE : Env := { envW with transport := fun _ => .error exConnectError }

/-- A concrete signer identity. -/
def accW : Account := ⟨"0xSigner"⟩

/-- A concrete x402 client configuration. -/
def cW : x402Client := ⟨accW, some 7, none⟩

/-! ## Helper lemmas -/

/-- The guard value left by `applyCatch` is always `false`. -/
@[simp] theorem applyCatch_is_retry (e : Exn) (r : Response)
    (q : Option Request) (evs : List Event) :
    (applyCatch e r q evs).is_retry = false := by
  unfold applyCatch; split <;> rfl

/-- `applyCatch` always raises. -/
@[simp] theorem applyCatch_raised_isSome (e : Exn) (r : Response)
    (q : Option Request) (evs : List Event) :
    (applyCatch e r q evs).raised.isSome = true := by
  unfold applyCatch; split <;> rfl

/-- `applyCatch` keeps the event list it is given. -/
@[simp] theorem applyCatch_events (e : Exn) (r : Response)
    (q : Option Request) (evs : List Event) :
    (applyCatch e r q evs).events = evs := by
  unfold applyCatch; split <;> rfl

/-- With the guard set, `on_response` touches nothing: it returns the
response as is with no events, clearing the guard exactly when the
response is a 402. -/
theorem on_response_guard_true (env : Env) (owned : Bool) (fuel : Nat)
    (resp : Response) :
    on_response env owned fuel true resp =
      { is_retry := if resp.status_code = 402 then false else true,
        raised := none, response := resp, request := resp.request,
        events := [] } := by
  by_cases h : resp.status_code = 402 <;> simp [on_response, h]

/-- One `on_response` call resends the request at most once, whatever
the environment does. -/
theorem resend_bound (env : Env) (owned : Bool) (fuel : Nat) (st : Bool)
    (resp : Response) :
    resendCount (on_response env owned fuel st resp).events ≤ 1 := by
  have hg : ∀ f r, (on_response env owned f true r).events = [] := by
    intro f r; rw [on_response_guard_true]
  cases st with
  | true => rw [on_response_guard_true]; simp [resendCount]
  | false =>
    unfold on_response
    repeat' split
    all_goals try simp_all [resendCount, isResend, hg]
    all_goals repeat' split
    all_goals simp_all [resendCount, isResend, hg]

/-- When the interceptor owns a reference to its client, the throwaway
fallback client is never used. -/
theorem owned_no_fallback (env : Env) (fuel : Nat) (st : Bool)
    (resp : Response) :
    Event.resendFallback ∉ (on_response env true fuel st resp).events := by
  have hg : ∀ f r, (on_response env true f true r).events = [] := by
    intro f r; rw [on_response_guard_true]
  cases st with
  | true => rw [on_response_guard_true]; simp
  | false =>
    unfold on_response
    repeat' split
    all_goals try simp_all [hg]
    all_goals repeat' split
    all_goals simp_all [hg]

/-- Every `on_response` call either returns normally or leaves the guard
cleared: the exception handlers always reset `_is_retry`. -/
theorem raised_none_or_guard_false (env : Env) (owned : Bool) (fuel : Nat)
    (st : Bool) (resp : Response) :
    (on_response env owned fuel st resp).raised = none ∨
    (on_response env owned fuel st resp).is_retry = false := by
  cases st with
  | true => rw [on_response_guard_true]; left; rfl
  | false =>
    unfold on_response
    repeat' split
    all_goals try simp
    all_goals repeat' split
    all_goals simp

/-- `setHeader` makes the header it sets readable. -/
theorem getHeader_setHeader_self (hs : List (String × String))
    (k v : String) : getHeader (setHeader hs k v) k = some v := by
  induction hs with
  | nil => simp [setHeader, getHeader]
  | cons p rest ih =>
    by_cases h : p.1 = k <;> simp [setHeader, getHeader, h, ih]

/-- `setHeader` leaves other header names untouched. -/
theorem getHeader_setHeader_other (hs : List (String × String))
    (k k' v : String) (h : k' ≠ k) :
    getHeader (setHeader hs k v) k' = getHeader hs k' := by
  induction hs with
  | nil => simp [setHeader, getHeader, Ne.symm h]
  | cons p rest ih =>
    by_cases hp : p.1 = k
    · simp [setHeader, getHeader, hp, ih, h, Ne.symm h]
    · by_cases hp' : p.1 = k' <;>
        simp [setHeader, getHeader, hp, hp', ih, h, Ne.symm h]

/-- The mutated retried request carries the payment credential. -/
theorem mutatedRequest_payment (req : Request) (ph : String) :
    getHeader (mutatedRequest req ph).headers "X-Payment" = some ph := by
  unfold mutatedRequest
  rw [getHeader_setHeader_other _ _ _ _ (by decide), getHeader_setHeader_self]

/-- The mutated retried request exposes the payment-response header. -/
theorem mutatedRequest_expose (req : Request) (ph : String) :
    getHeader (mutatedRequest req ph).headers "Access-Control-Expose-Headers" =
      some "X-Payment-Response" := by
  unfold mutatedRequest
  rw [getHeader_setHeader_self]

/-- The complete successful payment-retry path: what `on_response`
returns when the challenge parses and the selector, signer and resend all
succeed.  The guard on exit depends on the retry response: the owned
client's hook clears it only when the retry is again a 402. -/
theorem on_response_first_402_ok (env : Env) (owned : Bool) (fuel : Nat)
    (resp : Response) (req : Request) (pr : x402PaymentRequiredResponse)
    (sel : PaymentRequirements) (ph : String) (rresp : Response)
    (hstatus : resp.status_code = 402)
    (hreq : resp.request = some req)
    (hread : env.aread resp = .ok ())
    (hparse : env.parseBody resp.body = .ok pr)
    (hsel : env.select pr.accepts = .ok sel)
    (hsig : env.createHeader sel pr.x402_version = .ok ph)
    (hsend : env.transport (mutatedRequest req ph) = .ok rresp) :
    on_response env owned fuel false resp =
      { is_retry :=
          if owned = true ∧ fuel ≠ 0 ∧ rresp.status_code = 402 then false
          else true,
        raised := none,
        response :=
          { resp with
              status_code := rresp.status_code, headers := rresp.headers,
              body := rresp.body, request := some (mutatedRequest req ph) },
        request := some (mutatedRequest req ph),
        events :=
          [.bodyRead, .selectorCalled, .signerCalled,
            if owned then Event.resendOwned else Event.resendFallback] } := by
  unfold on_response
  simp only [hstatus, hreq, hread, hparse, hsel, hsig, hsend, ne_eq,
    not_true_eq_false, if_false, Bool.false_eq_true]
  cases owned with
  | false => simp
  | true =>
    cases fuel with
    | zero => simp
    | succ f =>
      have hg := on_response_guard_true env true f rresp
      by_cases h : rresp.status_code = 402 <;> simp [hg, h]

/-- Characterization of the non-402 branch: untouched pass-through. -/
theorem on_response_non402 (env : Env) (owned : Bool) (fuel : Nat)
    (st : Bool) (resp : Response) (h : resp.status_code ≠ 402) :
    on_response env owned fuel st resp =
      { is_retry := st, raised := none, response := resp,
        request := resp.request, events := [] } := by
  unfold on_response; simp [h]

/-- Characterization of the missing-request branch: the
`MissingRequestConfigError` is surfaced with no external call made. -/
theorem on_response_missing_request (env : Env) (owned : Bool) (fuel : Nat)
    (resp : Response) (h402 : resp.status_code = 402)
    (hreq : resp.request = none) :
    on_response env owned fuel false resp =
      { is_retry := false,
        raised := some (.mk .missingRequestConfigError
          "Missing request configuration" none),
        response := resp, request := none, events := [] } := by
  unfold on_response
  simp [h402, hreq, applyCatch, ExnClass.isPaymentError, Exn.cls]

/-- Characterization of a body-deserialization failure. -/
theorem on_response_parse_error (env : Env) (owned : Bool) (fuel : Nat)
    (resp : Response) (req : Request) (e : Exn)
    (hstatus : resp.status_code = 402) (hreq : resp.request = some req)
    (hread : env.aread resp = .ok ())
    (hparse : env.parseBody resp.body = .error e) :
    on_response env owned fuel false resp =
      applyCatch e resp (some req) [.bodyRead] := by
  unfold on_response
  simp [hstatus, hreq, hread, hparse]

/-- Characterization of a selector failure. -/
theorem on_response_select_error (env : Env) (owned : Bool) (fuel : Nat)
    (resp : Response) (req : Request) (pr : x402PaymentRequiredResponse)
    (e : Exn)
    (hstatus : resp.status_code = 402) (hreq : resp.request = some req)
    (hread : env.aread resp = .ok ())
    (hparse : env.parseBody resp.body = .ok pr)
    (hsel : env.select pr.accepts = .error e) :
    on_response env owned fuel false resp =
      applyCatch e resp (some req) [.bodyRead, .selectorCalled] := by
  unfold on_response
  simp [hstatus, hreq, hread, hparse, hsel]

/-- Characterization of a signer failure. -/
theorem on_response_sign_error (env : Env) (owned : Bool) (fuel : Nat)
    (resp : Response) (req : Request) (pr : x402PaymentRequiredResponse)
    (sel : PaymentRequirements) (e : Exn)
    (hstatus : resp.status_code = 402) (hreq : resp.request = some req)
    (hread : env.aread resp = .ok ())
    (hparse : env.parseBody resp.body = .ok pr)
    (hsel : env.select pr.accepts = .ok sel)
    (hsig : env.createHeader sel pr.x402_version = .error e) :
    on_response env owned fuel false resp =
      applyCatch e resp (some req)
        [.bodyRead, .selectorCalled, .signerCalled] := by
  unfold on_response
  simp [hstatus, hreq, hread, hparse, hsel, hsig]

/-- Characterization of a resend failure: the request was already
mutated, the response was not spliced. -/
theorem on_response_send_error (env : Env) (owned : Bool) (fuel : Nat)
    (resp : Response) (req : Request) (pr : x402PaymentRequiredResponse)
    (sel : PaymentRequirements) (ph : String) (e : Exn)
    (hstatus : resp.status_code = 402) (hreq : resp.request = some req)
    (hread : env.aread resp = .ok ())
    (hparse : env.parseBody resp.body = .ok pr)
    (hsel : env.select pr.accepts = .ok sel)
    (hsig : env.createHeader sel pr.x402_version = .ok ph)
    (hsend : env.transport (mutatedRequest req ph) = .error e) :
    on_response env owned fuel false resp =
      applyCatch e { resp with request := some (mutatedRequest req ph) }
        (some (mutatedRequest req ph))
        [.bodyRead, .selectorCalled, .signerCalled,
          if owned then Event.resendOwned else Event.resendFallback] := by
  unfold on_response
  simp [hstatus, hreq, hread, hparse, hsel, hsig, hsend]

/-! ## Claims -/

/-- Claim C1: a 402 observed while the retry guard is set is returned
unmodified — no body read, no selector call, no signer call, no resend —
and any single `on_response` cycle resends at most once, so at most one
payment attempt occurs per original request. -/
theorem guarded_402_passthrough (env : Env) (owned : Bool) (fuel : Nat)
    (resp : Response) (h : resp.status_code = 402) :
    on_response env owned fuel true resp =
      { is_retry := false, raised := none, response := resp,
        request := resp.request, events := [] }
    ∧ ∀ (st : Bool) (r : Response),
        resendCount (on_response env owned fuel st r).events ≤ 1 := by
  refine ⟨?_, fun st r => resend_bound env owned fuel st r⟩
  rw [on_response_guard_true]; simp [h]

/-- Witness for C1 at a concrete guarded 402. -/
theorem guarded_402_passthrough_witness :
    on_response envW true 1 true respW =
      { is_retry := false, raised := none, response := respW,
        request := respW.request, events := [] }
    ∧ ∀ (st : Bool) (r : Response),
        resendCount (on_response envW true 1 st r).events ≤ 1 :=
  guarded_402_passthrough envW true 1 respW rfl

/-- Claim C2: on a first 402 whose challenge parses and whose selector,
signer and resend succeed, the retried response's status, headers and body
are spliced into the original response object (same `id`, so the same
object is returned) and exactly one resend occurs. -/
theorem first_402_success_splice (env : Env) (owned : Bool) (fuel : Nat)
    (resp : Response) (req : Request) (pr : x402PaymentRequiredResponse)
    (sel : PaymentRequirements) (ph : String) (rresp : Response)
    (hstatus : resp.status_code = 402)
    (hreq : resp.request = some req)
    (hread : env.aread resp = .ok ())
    (hparse : env.parseBody resp.body = .ok pr)
    (hsel : env.select pr.accepts = .ok sel)
    (hsig : env.createHeader sel pr.x402_version = .ok ph)
    (hsend : env.transport (mutatedRequest req ph) = .ok rresp) :
    (on_response env owned fuel false resp).raised = none
    ∧ (on_response env owned fuel false resp).response.id = resp.id
    ∧ (on_response env owned fuel false resp).response.status_code =
        rresp.status_code
    ∧ (on_response env owned fuel false resp).response.headers = rresp.headers
    ∧ (on_response env owned fuel false resp).response.body = rresp.body
    ∧ resendCount (on_response env owned fuel false resp).events = 1 := by
  rw [on_response_first_402_ok env owned fuel resp req pr sel ph rresp
    hstatus hreq hread hparse hsel hsig hsend]
  cases owned <;> simp [resendCount, isResend]

/-- Witness for C2 at a concrete successful payment retry. -/
theorem first_402_success_splice_witness :
    (on_response envW true 1 false respW).raised = none
    ∧ (on_response envW true 1 false respW).response.id = respW.id
    ∧ (on_response envW true 1 false respW).response.status_code =
        rrespW.status_code
    ∧ (on_response envW true 1 false respW).response.headers = rrespW.headers
    ∧ (on_response envW true 1 false respW).response.body = rrespW.body
    ∧ resendCount (on_response envW true 1 false respW).events = 1 :=
  first_402_success_splice envW true 1 respW reqW prW ⟨"offer"⟩ "sig" rrespW
    rfl rfl rfl rfl rfl rfl rfl

/-- Claim C3 counterexample: the guard is not reset "the next time any
response is observed".  In a complete successful payment flow the retried
response is a 200; the hook passes it through before reaching the guard
branch, so the flow ends with the guard still set, and a non-402 response
observed with the guard set leaves it set. -/
theorem guard_survives_non402_counterexample :
    (on_response envW true 1 false respW).raised = none
    ∧ (on_response envW true 1 false respW).is_retry = true
    ∧ ¬ (on_response envW true 1 true resp200).is_retry = false := by
  refine ⟨rfl, rfl, ?_⟩
  decide

/-- Claim C3 (amended): the guard is false by default, is set true
immediately before the resend (observable through the fallback path,
where no hook can clear it), and is reset to false the next time a 402
response is observed with the guard set, or on any failure; a response
with any other status leaves the guard unchanged. -/
theorem guard_lifecycle_amended (env : Env) (owned : Bool) (fuel : Nat)
    (st : Bool) (resp : Response) (c : x402Client) (hc : Option Nat) :
    (HttpxHooks.init c hc)._is_retry = false
    ∧ (resp.status_code = 402 →
        (on_response env owned fuel true resp).is_retry = false)
    ∧ (resp.status_code ≠ 402 →
        (on_response env owned fuel st resp).is_retry = st)
    ∧ (∀ ex, (on_response env owned fuel st resp).raised = some ex →
        (on_response env owned fuel st resp).is_retry = false)
    ∧ (∀ req pr sel ph rresp, resp.status_code = 402 →
        resp.request = some req →
        env.aread resp = .ok () →
        env.parseBody resp.body = .ok pr →
        env.select pr.accepts = .ok sel →
        env.createHeader sel pr.x402_version = .ok ph →
        env.transport (mutatedRequest req ph) = .ok rresp →
        (on_response env false fuel false resp).is_retry = true) := by
  refine ⟨rfl, ?_, ?_, ?_, ?_⟩
  · intro h; rw [on_response_guard_true]; simp [h]
  · intro h; rw [on_response_non402 env owned fuel st resp h]
  · intro ex h
    rcases raised_none_or_guard_false env owned fuel st resp with h0 | h0
    · rw [h] at h0; cases h0
    · exact h0
  · intro req pr sel ph rresp hstatus hreq hread hparse hsel hsig hsend
    rw [on_response_first_402_ok env false fuel resp req pr sel ph rresp
      hstatus hreq hread hparse hsel hsig hsend]
    simp

/-- Witness for the amended C3 at concrete inputs: a guarded 402 clears
the guard, a guarded 200 keeps it, a failure clears it, and a fallback
resend leaves it set. -/
theorem guard_lifecycle_amended_witness :
    (on_response envW true 1 true respW).is_retry = false
    ∧ (on_response envW true 1 true resp200).is_retry = true
    ∧ (on_response envW true 1 false respNoReq).is_retry = false
    ∧ (on_response envW false 1 false respW).is_retry = true :=
  ⟨(guard_lifecycle_amended envW true 1 true respW cW none).2.1 rfl,
   (guard_lifecycle_amended envW true 1 true resp200 cW none).2.2.1 (by decide),
   (guard_lifecycle_amended envW true 1 false respNoReq cW none).2.2.2.1
     (.mk .missingRequestConfigError "Missing request configuration" none) rfl,
   (guard_lifecycle_amended envW false 1 false respW cW none).2.2.2.2
     reqW prW ⟨"offer"⟩ "sig" rrespW rfl rfl rfl rfl rfl rfl rfl⟩

/-- Claim C4: a non-`PaymentError` exception during challenge handling
(deserialization failure, transport failure on resend) resets the guard
and is re-raised as a `PaymentError` whose message contains the original
exception's type name and message and whose cause is the original
exception; a deliberately raised `PaymentError` (selector failure) resets
the guard and is re-raised unchanged, never double-wrapped. -/
theorem exception_wrapping (env : Env) (owned : Bool) (fuel : Nat)
    (resp : Response) (req : Request)
    (hstatus : resp.status_code = 402) (hreq : resp.request = some req)
    (hread : env.aread resp = .ok ()) :
    (∀ pr e, env.parseBody resp.body = .ok pr →
        env.select pr.accepts = .error e → e.cls.isPaymentError = true →
        (on_response env owned fuel false resp).raised = some e
        ∧ (on_response env owned fuel false resp).is_retry = false
        ∧ resendCount (on_response env owned fuel false resp).events = 0)
    ∧ (∀ e, env.parseBody resp.body = .error e →
        e.cls.isPaymentError = false →
        (on_response env owned fuel false resp).raised = some (wrapExn e)
        ∧ (on_response env owned fuel false resp).is_retry = false
        ∧ (wrapExn e).cls = .paymentError
        ∧ (wrapExn e).cause = some e
        ∧ (∃ a b, (wrapExn e).msg = a ++ e.cls.typeName ++ b)
        ∧ (e.msg ≠ "" → ∃ a b, (wrapExn e).msg = a ++ e.msg ++ b))
    ∧ (∀ pr sel ph e, env.parseBody resp.body = .ok pr →
        env.select pr.accepts = .ok sel →
        env.createHeader sel pr.x402_version = .ok ph →
        env.transport (mutatedRequest req ph) = .error e →
        e.cls.isPaymentError = false →
        (on_response env owned fuel false resp).raised = some (wrapExn e)
        ∧ (on_response env owned fuel false resp).is_retry = false) := by
  refine ⟨?_, ?_, ?_⟩
  · intro pr e hparse hsel he
    rw [on_response_select_error env owned fuel resp req pr e
      hstatus hreq hread hparse hsel]
    simp [applyCatch, he, resendCount, isResend]
  · intro e hparse he
    rw [on_response_parse_error env owned fuel resp req e
      hstatus hreq hread hparse]
    refine ⟨?_, ?_, rfl, rfl, ?_, ?_⟩
    · simp [applyCatch, he]
    · simp [applyCatch, he]
    · refine ⟨"Failed to handle payment: ", ": " ++ errStr e, ?_⟩
      have h0 : (wrapExn e).msg =
          "Failed to handle payment: " ++ e.cls.typeName ++ ": " ++ errStr e :=
        rfl
      simp [h0, String.append_assoc]
    · intro hne
      refine ⟨"Failed to handle payment: " ++ e.cls.typeName ++ ": ", "", ?_⟩
      have h0 : (wrapExn e).msg =
          "Failed to handle payment: " ++ e.cls.typeName ++ ": " ++ errStr e :=
        rfl
      have h1 : errStr e = e.msg := by simp [errStr, hne]
      rw [h0, h1, String.append_empty]
  · intro pr sel ph e hparse hsel hsig hsend he
    rw [on_response_send_error env owned fuel resp req pr sel ph e
      hstatus hreq hread hparse hsel hsig hsend]
    simp [applyCatch, he]

/-- Witness for C4: a selector `PaymentError` surfaces unchanged; a
deserialization error and a transport error surface wrapped. -/
theorem exception_wrapping_witness :
    (on_response envSel true 1 false respW).raised = some exNoMatch
    ∧ (on_response envP true 1 false respW).raised = some (wrapExn exValueError)
    ∧ (on_response envE true 1 false respW).raised = some (wrapExn exConnectError) :=
  ⟨((exception_wrapping envSel true 1 respW reqW rfl rfl rfl).1
      prW exNoMatch rfl rfl rfl).1,
   ((exception_wrapping envP true 1 respW reqW rfl rfl rfl).2.1
      exValueError rfl rfl).1,
   ((exception_wrapping envE true 1 respW reqW rfl rfl rfl).2.2
      prW ⟨"offer"⟩ "sig" exConnectError rfl rfl rfl rfl rfl).1⟩

/-- Claim C5: a 402 with no originating request fails with
`MissingRequestConfigError` (its own configuration-error class, not a
plain `PaymentError`), and makes no network calls. -/
theorem missing_request_fails_without_network (env : Env) (owned : Bool)
    (fuel : Nat) (resp : Response)
    (h402 : resp.status_code = 402) (hreq : resp.request = none) :
    on_response env owned fuel false resp =
      { is_retry := false,
        raised := some (.mk .missingRequestConfigError
          "Missing request configuration" none),
        response := resp, request := none, events := [] } :=
  on_response_missing_request env owned fuel resp h402 hreq

/-- Witness for C5 at a concrete request-less 402. -/
theorem missing_request_fails_without_network_witness :
    on_response envW true 1 false respNoReq =
      { is_retry := false,
        raised := some (.mk .missingRequestConfigError
          "Missing request configuration" none),
        response := respNoReq, request := none, events := [] } :=
  missing_request_fails_without_network envW true 1 respNoReq rfl rfl

/-- Claim C6: a response whose status is not 402 is returned unchanged —
same object, no field mutated, guard untouched — with no selector, signer
or network call. -/
theorem non_402_passthrough (env : Env) (owned : Bool) (fuel : Nat)
    (st : Bool) (resp : Response) (h : resp.status_code ≠ 402) :
    on_response env owned fuel st resp =
      { is_retry := st, raised := none, response := resp,
        request := resp.request, events := [] } :=
  on_response_non402 env owned fuel st resp h

/-- Witness for C6 at a concrete 200. -/
theorem non_402_passthrough_witness :
    on_response envW true 1 false resp200 =
      { is_retry := false, raised := none, response := resp200,
        request := resp200.request, events := [] } :=
  non_402_passthrough envW true 1 false resp200 (by decide)

/-- Claim C7: the resent request is the same originating request object
(same `id`) mutated to carry the signed credential in "X-Payment" and an
"Access-Control-Expose-Headers: X-Payment-Response" header, and the
resend goes through the owning client when one is available, otherwise
through the throwaway fallback client. -/
theorem retry_request_mutation_and_client (env : Env) (owned : Bool)
    (fuel : Nat) (resp : Response) (req : Request)
    (pr : x402PaymentRequiredResponse) (sel : PaymentRequirements)
    (ph : String) (rresp : Response)
    (hstatus : resp.status_code = 402)
    (hreq : resp.request = some req)
    (hread : env.aread resp = .ok ())
    (hparse : env.parseBody resp.body = .ok pr)
    (hsel : env.select pr.accepts = .ok sel)
    (hsig : env.createHeader sel pr.x402_version = .ok ph)
    (hsend : env.transport (mutatedRequest req ph) = .ok rresp) :
    (mutatedRequest req ph).id = req.id
    ∧ getHeader (mutatedRequest req ph).headers "X-Payment" = some ph
    ∧ getHeader (mutatedRequest req ph).headers
        "Access-Control-Expose-Headers" = some "X-Payment-Response"
    ∧ (on_response env owned fuel false resp).request =
        some (mutatedRequest req ph)
    ∧ (on_response env owned fuel false resp).events =
        [.bodyRead, .selectorCalled, .signerCalled,
          if owned then Event.resendOwned else Event.resendFallback] := by
  rw [on_response_first_402_ok env owned fuel resp req pr sel ph rresp
    hstatus hreq hread hparse hsel hsig hsend]
  exact ⟨rfl, mutatedRequest_payment req ph, mutatedRequest_expose req ph,
    rfl, rfl⟩

/-- Witness for C7 at a concrete successful retry through the owned
client. -/
theorem retry_request_mutation_and_client_witness :
    (mutatedRequest reqW "sig").id = reqW.id
    ∧ getHeader (mutatedRequest reqW "sig").headers "X-Payment" = some "sig"
    ∧ getHeader (mutatedRequest reqW "sig").headers
        "Access-Control-Expose-Headers" = some "X-Payment-Response"
    ∧ (on_response envW true 1 false respW).request =
        some (mutatedRequest reqW "sig")
    ∧ (on_response envW true 1 false respW).events =
        [.bodyRead, .selectorCalled, .signerCalled,
          if true then Event.resendOwned else Event.resendFallback] :=
  retry_request_mutation_and_client envW true 1 respW reqW prW ⟨"offer"⟩
    "sig" rrespW rfl rfl rfl rfl rfl rfl rfl

/-- `applyCatch` reports the response state it is given. -/
theorem applyCatch_response (e : Exn) (r : Response) (q : Option Request)
    (evs : List Event) : (applyCatch e r q evs).response = r := by
  unfold applyCatch; split <;> rfl

/-- `applyCatch` reports the request state it is given. -/
theorem applyCatch_request (e : Exn) (r : Response) (q : Option Request)
    (evs : List Event) : (applyCatch e r q evs).request = q := by
  unfold applyCatch; split <;> rfl

/-- Claim C8: the hook-bundle factory and the pre-configured client
subclass produce identical interceptor wiring — the same `x402Client`
from account, max_value and selector, registered as exactly one request
hook and one response hook — and the subclass always wires the retry
client to itself, so the owned-client path is taken and the throwaway
fallback is never used. -/
theorem wiring_equivalence (a : Account) (mv : Option Int)
    (s : Option PaymentSelectorCallable) (sid : Nat)
    (kw : Option EventHooks) (c : Option Nat) :
    (x402HttpxClient.init sid a mv s kw).event_hooks =
      x402_payment_hooks a mv s (some sid)
    ∧ (x402_payment_hooks a mv s c).request =
        [Hook.on_request_hook (HttpxHooks.init (x402Client.mk a mv s) c)]
    ∧ (x402_payment_hooks a mv s c).response =
        [Hook.on_response_hook (HttpxHooks.init (x402Client.mk a mv s) c)]
    ∧ (x402HttpxClient.init sid a mv s kw).event_hooks.response =
        [Hook.on_response_hook
          (HttpxHooks.init (x402Client.mk a mv s) (some sid))]
    ∧ ∀ (env : Env) (fuel : Nat) (st : Bool) (r : Response),
        Event.resendFallback ∉ (on_response env true fuel st r).events :=
  ⟨rfl, rfl, rfl, rfl, fun env fuel st r => owned_no_fallback env fuel st r⟩

/-- Witness for C8 at a concrete account, ceiling and client id. -/
theorem wiring_equivalence_witness :
    (x402HttpxClient.init 42 accW (some 7) none none).event_hooks =
      x402_payment_hooks accW (some 7) none (some 42)
    ∧ Event.resendFallback ∉ (on_response envW true 1 false respW).events :=
  ⟨(wiring_equivalence accW (some 7) none 42 none (some 42)).1,
   (wiring_equivalence accW (some 7) none 42 none (some 42)).2.2.2.2
     envW 1 false respW⟩

/-- Claim C9: when the resend itself fails, the original response
object's status, headers and body are untouched (the splice only happens
after a successful resend), an exception is raised, but the originating
request object keeps the "X-Payment" and "Access-Control-Expose-Headers"
headers added before the resend — they are not rolled back. -/
theorem resend_failure_effects (env : Env) (owned : Bool) (fuel : Nat)
    (resp : Response) (req : Request) (pr : x402PaymentRequiredResponse)
    (sel : PaymentRequirements) (ph : String) (e : Exn)
    (hstatus : resp.status_code = 402)
    (hreq : resp.request = some req)
    (hread : env.aread resp = .ok ())
    (hparse : env.parseBody resp.body = .ok pr)
    (hsel : env.select pr.accepts = .ok sel)
    (hsig : env.createHeader sel pr.x402_version = .ok ph)
    (hsend : env.transport (mutatedRequest req ph) = .error e) :
    (on_response env owned fuel false resp).raised.isSome = true
    ∧ (on_response env owned fuel false resp).response.status_code =
        resp.status_code
    ∧ (on_response env owned fuel false resp).response.headers = resp.headers
    ∧ (on_response env owned fuel false resp).response.body = resp.body
    ∧ (on_response env owned fuel false resp).request =
        some (mutatedRequest req ph)
    ∧ getHeader (mutatedRequest req ph).headers "X-Payment" = some ph
    ∧ getHeader (mutatedRequest req ph).headers
        "Access-Control-Expose-Headers" = some "X-Payment-Response" := by
  rw [on_response_send_error env owned fuel resp req pr sel ph e
    hstatus hreq hread hparse hsel hsig hsend]
  refine ⟨applyCatch_raised_isSome _ _ _ _, ?_, ?_, ?_, ?_,
    mutatedRequest_payment req ph, mutatedRequest_expose req ph⟩
  all_goals simp [applyCatch_response, applyCatch_request]

/-- Witness for C9 at a concrete failing resend. -/
theorem resend_failure_effects_witness :
    (on_response envE true 1 false respW).raised.isSome = true
    ∧ (on_response envE true 1 false respW).response.status_code =
        respW.status_code
    ∧ (on_response envE true 1 false respW).response.headers = respW.headers
    ∧ (on_response envE true 1 false respW).response.body = respW.body
    ∧ (on_response envE true 1 false respW).request =
        some (mutatedRequest reqW "sig")
    ∧ getHeader (mutatedRequest reqW "sig").headers "X-Payment" = some "sig"
    ∧ getHeader (mutatedRequest reqW "sig").headers
        "Access-Control-Expose-Headers" = some "X-Payment-Response" :=
  resend_failure_effects envE true 1 respW reqW prW ⟨"offer"⟩ "sig"
    exConnectError rfl rfl rfl rfl rfl rfl rfl

/-- Claim C10: `x402HttpxClient.__init__` overwrites `event_hooks` after
the parent constructor ran, so event hooks passed through kwargs — which
the parent would have installed — are silently replaced by the x402
payment hooks, identically to passing no hooks at all. -/
theorem ctor_event_hooks_overwritten (sid : Nat) (a : Account)
    (mv : Option Int) (s : Option PaymentSelectorCallable)
    (eh : EventHooks) :
    (AsyncClient.init sid (some eh)).event_hooks = eh
    ∧ (x402HttpxClient.init sid a mv s (some eh)).event_hooks =
        { request := [Hook.on_request_hook
            (HttpxHooks.init (x402Client.mk a mv s) (some sid))],
          response := [Hook.on_response_hook
            (HttpxHooks.init (x402Client.mk a mv s) (some sid))] }
    ∧ (x402HttpxClient.init sid a mv s (some eh)).event_hooks =
        (x402HttpxClient.init sid a mv s none).event_hooks :=
  ⟨rfl, rfl, rfl⟩

end X402
